import Mathlib

/-!
Verification of the ARCampus geospatial anchoring core.

Shallow embedding of the relevant parts of the repository:
* `latLonToOffset` — the geodetic projector of `campus-ar/src/App.jsx`
  (lines 14–20), with the intermediate `dLat`/`dLon`/`x`/`z` bindings inlined.
* the orientation calibrator of `useDeviceHeading` / `handleOrientation`
  (App.jsx lines 73–106), modelled as an explicit state machine over the
  calibrated heading plus the two event-source subscription flags.
* the position-tracker callback of the geolocation effect (App.jsx lines
  146–164) and the render placement of each entity (lines 198–204).
* the DELETE route of `campus-ar-backend/server.js` (lines 56–64).

Scalars that the JavaScript treats as IEEE floats are modelled as real
numbers where trigonometry is involved (the projector, scene rotation) and
as rationals elsewhere (headings, coordinates, entity offsets), which keeps
those parts computable and decidable.
-/

namespace ARCampus

/-- Earth radius in meters, `const earthRadius = 6371000` in App.jsx. -/
def earthRadius : ℝ := 6371000

/-- The geodetic projector `latLonToOffset(lat0, lon0, lat, lon)` of App.jsx:
`dLat = (lat - lat0) * π/180`, `dLon = (lon - lon0) * π/180`,
`x = dLon * R * cos(lat0 * π/180)`, `z = dLat * R`, result `[x, 0, -z]`
(north forward, i.e. north is negative z). The four `const` bindings of the
source are inlined. -/
noncomputable def latLonToOffset (lat0 lon0 lat lon : ℝ) : ℝ × ℝ × ℝ :=
  ((lon - lon0) * (Real.pi / 180) * earthRadius * Real.cos (lat0 * Real.pi / 180),
   0,
   -((lat - lat0) * (Real.pi / 180) * earthRadius))

/-- A device orientation event as the calibrator reads it:
`webkitCompassHeading` is `none` when the property is absent (non-iOS),
`alpha` is `none` when the DOM reports `null`. -/
structure OrientationSample where
  webkitCompassHeading : Option ℚ
  alpha : Option ℚ
deriving DecidableEq, Repr

/-- The compass angle the handler computes from a sample, mirroring
`if (e.webkitCompassHeading) { compass = e.webkitCompassHeading } else if
(e.alpha !== null) { compass = 360 - e.alpha }`. The JavaScript `if` tests
truthiness, so a reported compass heading of `0` falls through to the alpha
branch; `none` here is the `undefined` of the source. -/
def compassOf (e : OrientationSample) : Option ℚ :=
  match e.webkitCompassHeading with
  | some c => if c ≠ 0 then some c else e.alpha.map (fun a => 360 - a)
  | none => e.alpha.map (fun a => 360 - a)

/-- State of the orientation calibrator: the captured heading (the React
state `initialHeading`, `none` before calibration) and whether the handler
is still subscribed to the `deviceorientationabsolute` and
`deviceorientation` event sources. -/
structure CalibratorState where
  initialHeading : Option ℚ
  subscribedAbsolute : Bool
  subscribedRelative : Bool
deriving DecidableEq, Repr

/-- Initial calibrator state: uncalibrated, listening on both sources
(the effect adds both listeners on mount). -/
def initCalibrator : CalibratorState := ⟨none, true, true⟩

/-- One step of `handleOrientation(e)`: if the computed compass angle is
defined and `initialHeading === null`, capture it and remove both listeners;
otherwise the sample leaves the state unchanged. -/
def handleOrientation (s : CalibratorState) (e : OrientationSample) : CalibratorState :=
  match compassOf e with
  | some c => if s.initialHeading = none then ⟨some c, false, false⟩ else s
  | none => s

/-- Processing a stream of orientation events in arrival order, starting
from the freshly mounted calibrator. -/
def runCalibrator (events : List OrientationSample) : CalibratorState :=
  events.foldl handleOrientation initCalibrator

/-- The three kinds of object the geolocation callback places. -/
inductive ObjectType
  | user
  | monk
  | button
deriving DecidableEq, Repr

/-- An entry of the `objects` state array: `{ lat, lon, type }`. -/
structure ARObject where
  lat : ℚ
  lon : ℚ
  type : ObjectType
deriving DecidableEq, Repr

/-- The object list built by the geolocation success callback in App.jsx
(lines 152–159): the user marker at the fix, four monks at fixed small
offsets, and the interactive button at `lon + 0.00005`. -/
def makeObjects (latitude longitude : ℚ) : List ARObject :=
  [⟨latitude, longitude, ObjectType.user⟩,
   ⟨latitude + 0.00005, longitude, ObjectType.monk⟩,
   ⟨latitude + 0.0001, longitude + 0.0001, ObjectType.monk⟩,
   ⟨latitude + 0.00001, longitude + 0.00001, ObjectType.monk⟩,
   ⟨latitude + 0.00002, longitude + 0.00002, ObjectType.monk⟩,
   ⟨latitude, longitude + 0.00005, ObjectType.button⟩]

/-- The component state touched by the geolocation callback: the `origin`
state and the `objects` state. -/
structure AppState where
  origin : Option (ℚ × ℚ)
  objects : List ARObject
deriving DecidableEq, Repr

/-- State before any fix: `origin = null`, `objects = []`. -/
def initAppState : AppState := ⟨none, []⟩

/-- The geolocation success callback: `setOrigin([latitude, longitude])`
followed by `setObjects([...])` — both states are replaced wholesale,
independent of the previous state. -/
def onFix (_s : AppState) (latitude longitude : ℚ) : AppState :=
  ⟨some (latitude, longitude), makeObjects latitude longitude⟩

/-- The module-level constant `WORLD_ORIGIN = [12.7489708, 80.1988392]`
of App.jsx. -/
def WORLD_ORIGIN : ℚ × ℚ := (12.7489708, 80.1988392)

/-- The render placement of one object, App.jsx lines 202–204:
`latLonToOffset(WORLD_ORIGIN[0], WORLD_ORIGIN[1], obj.lat, obj.lon)` —
the offset is taken relative to the `WORLD_ORIGIN` constant. -/
noncomputable def appRenderOffset (o : ARObject) : ℝ × ℝ × ℝ :=
  latLonToOffset ((WORLD_ORIGIN.1 : ℚ) : ℝ) ((WORLD_ORIGIN.2 : ℚ) : ℝ)
    ((o.lat : ℚ) : ℝ) ((o.lon : ℚ) : ℝ)

/-- The App-level capture effect `if (heading && initialHeading === null)
setInitialHeading(heading)`: since the device heading is itself captured at
most once, the App state equals the heading when the heading is truthy
(present and nonzero) and stays `null` otherwise. -/
def appInitialHeading (heading : Option ℚ) : Option ℚ :=
  match heading with
  | some h => if h ≠ 0 then some h else none
  | none => none

/-- `THREE.MathUtils.degToRad`. -/
noncomputable def degToRad (d : ℝ) : ℝ := d * (Real.pi / 180)

/-- The yaw the scene root receives, in degrees: the rotation of the group
is `-degToRad(initialHeading || 0)`, whose degree measure is
`-(initialHeading || 0)`. -/
def sceneYawDegrees (ih : Option ℚ) : ℚ := -(ih.getD 0)

/-- The literal y rotation of the scene-root group in App.jsx line 198:
`-THREE.MathUtils.degToRad(initialHeading || 0)` (radians). -/
noncomputable def sceneRotationY (ih : Option ℚ) : ℝ :=
  -(degToRad ((ih.getD 0 : ℚ) : ℝ))

/-- The composed scene: one yaw applied once at the scene root, and for
each object a placement that is a bare position (no per-entity rotation
appears anywhere in the render of App.jsx). -/
noncomputable def composeScene (heading : Option ℚ) (objects : List ARObject) :
    ℝ × List (ℝ × ℝ × ℝ) :=
  (sceneRotationY (appInitialHeading heading), objects.map appRenderOffset)

/-- A stored AR point of the backend schema (server.js lines 18–25);
`id` stands for Mongo's `_id`. -/
structure ARPoint where
  id : String
  name : String
  modelUrl : String
  modelType : String
  latitude : ℚ
  longitude : ℚ
deriving DecidableEq, Repr

/-- `ARPoint.findByIdAndDelete(id)`: removes the document whose `_id`
matches (ids are unique, so the first match), and is a no-op when no
document matches — it resolves to null rather than throwing for a
well-formed id. -/
def findByIdAndDelete : List ARPoint → String → List ARPoint
  | [], _ => []
  | p :: rest, i => if p.id = i then rest else p :: findByIdAndDelete rest i

/-- An HTTP response of the delete route: status code and message body. -/
structure DeleteResponse where
  status : Nat
  message : String
deriving DecidableEq, Repr

/-- The `DELETE /api/arpoints/:id` handler (server.js lines 56–64) on a
well-formed id: await `findByIdAndDelete`, then unconditionally
`res.json({ message: 'Point deleted successfully' })`. -/
def deleteHandler (store : List ARPoint) (i : String) : List ARPoint × DeleteResponse :=
  (findByIdAndDelete store i, ⟨200, "Point deleted successfully"⟩)

/-! Helper lemmas about the calibrator state machine. -/

lemma handleOrientation_unusable {e : OrientationSample} (h : compassOf e = none)
    (s : CalibratorState) : handleOrientation s e = s := by
  simp [handleOrientation, h]

lemma handleOrientation_terminal {s : CalibratorState} (h : s.initialHeading ≠ none)
    (e : OrientationSample) : handleOrientation s e = s := by
  unfold handleOrientation
  cases hc : compassOf e with
  | none => rfl
  | some c => simp [h]

lemma foldl_handleOrientation_terminal {s : CalibratorState} (h : s.initialHeading ≠ none) :
    ∀ l : List OrientationSample, l.foldl handleOrientation s = s := by
  intro l
  induction l with
  | nil => rfl
  | cons e rest ih =>
      rw [List.foldl_cons, handleOrientation_terminal h e, ih]

lemma handleOrientation_usable {e : OrientationSample} {c : ℚ} (he : compassOf e = some c)
    {s : CalibratorState} (hs : s.initialHeading = none) :
    handleOrientation s e = ⟨some c, false, false⟩ := by
  simp [handleOrientation, he, hs]

/-- Claim C2: the calibrator is a one-shot state machine. Over any event
stream that first carries only unusable samples and then a sample with a
usable compass angle `c`, the run ends calibrated to `c`, with both the
absolute and the relative orientation subscriptions removed, and no
subsequent samples (of any content) change that state. -/
theorem calibrator_one_shot (pre : List OrientationSample) (e : OrientationSample)
    (post : List OrientationSample) (c : ℚ)
    (hpre : ∀ s ∈ pre, compassOf s = none) (he : compassOf e = some c) :
    runCalibrator (pre ++ e :: post) = ⟨some c, false, false⟩ := by
  unfold runCalibrator
  induction pre with
  | nil =>
      rw [List.nil_append, List.foldl_cons,
        handleOrientation_usable he (show initCalibrator.initialHeading = none from rfl)]
      exact foldl_handleOrientation_terminal (by simp) post
  | cons p pre ih =>
      rw [List.cons_append, List.foldl_cons,
        handleOrientation_unusable (hpre p (List.mem_cons_self p pre)) initCalibrator]
      exact ih (fun s hs => hpre s (List.mem_cons_of_mem p hs))

/-- Claim C2 witness: feeding `{alpha: 350}` then `{alpha: 10}` calibrates
to `10` on the first sample, unsubscribes both sources, and the second
sample changes nothing. -/
theorem calibrator_one_shot_witness :
    (∀ s ∈ ([] : List OrientationSample), compassOf s = none) ∧
    compassOf ⟨none, some 350⟩ = some 10 ∧
    runCalibrator ([] ++ ⟨none, some 350⟩ :: [⟨none, some 10⟩]) = ⟨some 10, false, false⟩ :=
  ⟨fun s hs => absurd hs (List.not_mem_nil s), by norm_num [compassOf],
    calibrator_one_shot [] ⟨none, some 350⟩ [⟨none, some 10⟩] 10
      (fun s hs => absurd hs (List.not_mem_nil s)) (by norm_num [compassOf])⟩

/-- Claim C3 counterexample: a sample reporting compass heading `0` (with
alpha null) does not calibrate to `0` — the truthiness test on
`webkitCompassHeading` skips the value, and the state stays uncalibrated. -/
theorem compass_zero_skipped :
    (handleOrientation initCalibrator ⟨some 0, none⟩).initialHeading ≠ some 0 := by
  decide

/-- Claim C3 (amended): a sample carrying a nonzero device-reported compass
heading, arriving while uncalibrated, calibrates to exactly that value (a
reported `0` instead falls through to the alpha branch). -/
theorem compass_heading_used_as_is (c : ℚ) (a : Option ℚ) (s : CalibratorState)
    (hc : c ≠ 0) (hs : s.initialHeading = none) :
    handleOrientation s ⟨some c, a⟩ = ⟨some c, false, false⟩ :=
  handleOrientation_usable (by simp [compassOf, hc]) hs

/-- Claim C3 witness: `{compassHeading: 42}` calibrates to exactly `42`. -/
theorem compass_heading_used_as_is_witness :
    (42 : ℚ) ≠ 0 ∧ initCalibrator.initialHeading = none ∧
    handleOrientation initCalibrator ⟨some 42, none⟩ = ⟨some 42, false, false⟩ :=
  ⟨by norm_num, rfl,
    compass_heading_used_as_is 42 none initCalibrator (by norm_num) rfl⟩

/-- Claim C5: a sample with neither a compass heading nor an alpha value
leaves the calibrator state exactly as it was — still uncalibrated if it
was, still subscribed to both sources — and the handler is total, so no
error is raised. -/
theorem empty_sample_ignored (s : CalibratorState) :
    handleOrientation s ⟨none, none⟩ = s := rfl

/-- Claim C4: the yaw applied once at the scene root is the negation of the
calibrated heading, and `0` while the heading is `null`: for every
calibrated value `h` the yaw in degrees is `-h`, in particular `null ↦ 0`
and `90 ↦ -90`; and the composed scene consists of exactly that single
root yaw together with bare per-entity positions (no per-entity rotation). -/
theorem scene_yaw_is_neg_heading :
    (∀ h : ℚ, sceneYawDegrees (appInitialHeading (some h)) = -h) ∧
    sceneYawDegrees (appInitialHeading none) = 0 ∧
    sceneYawDegrees (appInitialHeading (some 90)) = -90 ∧
    ∀ (heading : Option ℚ) (objects : List ARObject),
      composeScene heading objects =
        (sceneRotationY (appInitialHeading heading), objects.map appRenderOffset) := by
  refine ⟨?_, rfl, by norm_num [sceneYawDegrees, appInitialHeading], fun _ _ => rfl⟩
  intro h
  by_cases hh : h = 0 <;> simp [appInitialHeading, sceneYawDegrees, hh]

/-- Claim C9: every accepted fix replaces the object list, whatever the
previous state was, with exactly six objects: exactly one user marker at
exactly the fix coordinate, four monks at the fixed offsets
`(+0.00005, 0)`, `(+0.0001, +0.0001)`, `(+0.00001, +0.00001)`,
`(+0.00002, +0.00002)` (each with strictly positive latitude offset and
nonnegative longitude offset), and one button at
`(latitude, longitude + 0.00005)`. -/
theorem fix_builds_six_objects (st : AppState) (latitude longitude : ℚ) :
    (onFix st latitude longitude).objects = makeObjects latitude longitude ∧
    (makeObjects latitude longitude).length = 6 ∧
    ((makeObjects latitude longitude).filter (fun o => o.type = ObjectType.user)).map
        (fun o => (o.lat, o.lon)) = [(latitude, longitude)] ∧
    ((makeObjects latitude longitude).filter (fun o => o.type = ObjectType.monk)).map
        (fun o => (o.lat - latitude, o.lon - longitude)) =
      [(0.00005, 0), (0.0001, 0.0001), (0.00001, 0.00001), (0.00002, 0.00002)] ∧
    (∀ o ∈ (makeObjects latitude longitude).filter (fun o => o.type = ObjectType.monk),
      latitude < o.lat ∧ longitude ≤ o.lon) ∧
    ((makeObjects latitude longitude).filter (fun o => o.type = ObjectType.button)).map
        (fun o => (o.lat, o.lon)) = [(latitude, longitude + 0.00005)] := by
  refine ⟨rfl, rfl, ?_, ?_, ?_, ?_⟩
  · simp [makeObjects, List.filter]
  · simp [makeObjects, List.filter]
  · intro o ho
    simp [makeObjects, List.filter] at ho
    rcases ho with h | h | h | h <;> subst h <;> constructor <;> norm_num
  · simp [makeObjects, List.filter]

lemma findByIdAndDelete_no_match {i : String} :
    ∀ {store : List ARPoint}, (∀ p ∈ store, p.id ≠ i) →
      findByIdAndDelete store i = store := by
  intro store
  induction store with
  | nil => intro _; rfl
  | cons p rest ih =>
      intro h
      have hp : p.id ≠ i := h p (List.mem_cons_self p rest)
      simp only [findByIdAndDelete, if_neg hp]
      rw [ih (fun q hq => h q (List.mem_cons_of_mem p hq))]

/-- Claim C10: for every store and every well-formed id, the DELETE handler
answers with the success message `Point deleted successfully` — whether or
not a stored point has that id — and when no stored point has the id the
store is left unchanged. -/
theorem delete_nonexistent_indistinguishable (store : List ARPoint) (i : String) :
    (deleteHandler store i).2 = ⟨200, "Point deleted successfully"⟩ ∧
    ((∀ p ∈ store, p.id ≠ i) → (deleteHandler store i).1 = store) :=
  ⟨rfl, fun h => findByIdAndDelete_no_match h⟩

/-- Claim C10 witness: deleting id `b` from a store holding only a point
with id `a` answers the success message and leaves the store unchanged. -/
theorem delete_nonexistent_indistinguishable_witness :
    (∀ p ∈ [(⟨"a", "n", "u", "box", 1, 2⟩ : ARPoint)], p.id ≠ "b") ∧
    (deleteHandler [(⟨"a", "n", "u", "box", 1, 2⟩ : ARPoint)] "b").2 =
      ⟨200, "Point deleted successfully"⟩ ∧
    (deleteHandler [(⟨"a", "n", "u", "box", 1, 2⟩ : ARPoint)] "b").1 =
      [(⟨"a", "n", "u", "box", 1, 2⟩ : ARPoint)] :=
  ⟨by decide,
    (delete_nonexistent_indistinguishable [⟨"a", "n", "u", "box", 1, 2⟩] "b").1,
    (delete_nonexistent_indistinguishable [⟨"a", "n", "u", "box", 1, 2⟩] "b").2 (by decide)⟩

/-- Claim C6: projecting a coordinate onto itself gives the zero offset. -/
theorem project_self_is_zero (lat lon : ℝ) :
    latLonToOffset lat lon lat lon = (0, 0, 0) := by
  simp [latLonToOffset]

lemma abs_cos_sub_cos_le (a b : ℝ) : |Real.cos a - Real.cos b| ≤ |a - b| := by
  rw [Real.cos_sub_cos, abs_mul, abs_mul]
  have h1 : |Real.sin ((a + b) / 2)| ≤ 1 := Real.abs_sin_le_one _
  have h2 : |Real.sin ((a - b) / 2)| ≤ |(a - b) / 2| := Real.abs_sin_le_abs
  have h3 : |(a - b) / 2| = |a - b| / 2 := by
    rw [abs_div]
    norm_num
  have h4 : |(-2 : ℝ)| = 2 := by norm_num
  rw [h4]
  nlinarith [abs_nonneg (Real.sin ((a + b) / 2)), abs_nonneg (Real.sin ((a - b) / 2)),
    abs_nonneg (a - b)]

/-- Claim C7: the projector is antisymmetric under swapping origin and
target — the z component exactly, and the x component up to a second-order
error bounded by the product of the angular offsets (the residue of the
cosine scaling, which uses the origin latitude), scaled by the Earth
radius. -/
theorem project_antisymmetric (lat0 lon0 lat lon : ℝ) :
    (latLonToOffset lat0 lon0 lat lon).2.2 = -(latLonToOffset lat lon lat0 lon0).2.2 ∧
    |(latLonToOffset lat0 lon0 lat lon).1 + (latLonToOffset lat lon lat0 lon0).1| ≤
      (|lon - lon0| * (Real.pi / 180)) * earthRadius * (|lat - lat0| * (Real.pi / 180)) := by
  constructor
  · simp [latLonToOffset]
    ring
  · have hsum : (latLonToOffset lat0 lon0 lat lon).1 + (latLonToOffset lat lon lat0 lon0).1 =
        (lon - lon0) * (Real.pi / 180) * earthRadius *
          (Real.cos (lat0 * Real.pi / 180) - Real.cos (lat * Real.pi / 180)) := by
      simp [latLonToOffset]
      ring
    rw [hsum, abs_mul]
    have hcos : |Real.cos (lat0 * Real.pi / 180) - Real.cos (lat * Real.pi / 180)| ≤
        |lat - lat0| * (Real.pi / 180) := by
      refine (abs_cos_sub_cos_le _ _).trans (le_of_eq ?_)
      rw [show lat0 * Real.pi / 180 - lat * Real.pi / 180 = (lat0 - lat) * (Real.pi / 180) by
        ring]
      rw [abs_mul, abs_sub_comm lat0 lat, abs_of_pos (by positivity : (0:ℝ) < Real.pi / 180)]
    have hk : (0:ℝ) < Real.pi / 180 := div_pos Real.pi_pos (by norm_num)
    have hR : |earthRadius| = earthRadius := abs_of_pos (by norm_num [earthRadius])
    have hfac : |(lon - lon0) * (Real.pi / 180) * earthRadius| =
        |lon - lon0| * (Real.pi / 180) * earthRadius := by
      rw [abs_mul, abs_mul, abs_of_pos hk, hR]
    rw [hfac]
    have hnn : (0:ℝ) ≤ |lon - lon0| * (Real.pi / 180) * earthRadius :=
      mul_nonneg (mul_nonneg (abs_nonneg _) hk.le) (by norm_num [earthRadius])
    calc |lon - lon0| * (Real.pi / 180) * earthRadius *
          |Real.cos (lat0 * Real.pi / 180) - Real.cos (lat * Real.pi / 180)|
        ≤ |lon - lon0| * (Real.pi / 180) * earthRadius * (|lat - lat0| * (Real.pi / 180)) :=
          mul_le_mul_of_nonneg_left hcos hnn
      _ = (|lon - lon0| * (Real.pi / 180)) * earthRadius * (|lat - lat0| * (Real.pi / 180)) := by
          ring

/-- Claim C8: with origin `(0, 0)` and target `(0.00005, 0)`, the projected
offset is `{x: 0, y: 0, z: ≈ -5.55}` with the z component within `0.1` m of
`-5.55` (the exact value is `-0.00005 · (π/180) · 6371000 ≈ -5.56`), and a
heading calibrated to `0` leaves the scene yaw at `0`, so this is the final
placement. -/
theorem end_to_end_north_offset :
    (latLonToOffset 0 0 0.00005 0).1 = 0 ∧
    (latLonToOffset 0 0 0.00005 0).2.1 = 0 ∧
    |(latLonToOffset 0 0 0.00005 0).2.2 - (-5.55)| ≤ 0.1 ∧
    sceneYawDegrees (appInitialHeading (some 0)) = 0 := by
  refine ⟨by simp [latLonToOffset], rfl, ?_, rfl⟩
  have hz : (latLonToOffset 0 0 0.00005 0).2.2 = -(0.00005 * (Real.pi / 180) * 6371000) := by
    simp [latLonToOffset, earthRadius]
  rw [hz, abs_le]
  constructor <;> nlinarith [Real.pi_gt_d2, Real.pi_lt_d2]

/-- Claim C1 counterexample: after the fix `(10, 20)` the user marker sits
at the fix coordinate itself, yet its rendered placement offset is not
`project(fix, fix) = (0,0,0)` — the render uses the `WORLD_ORIGIN`
constant, not the fix, as projection origin. -/
theorem fix_relative_placement_refuted :
    (⟨10, 20, ObjectType.user⟩ : ARObject) ∈ (onFix initAppState 10 20).objects ∧
    appRenderOffset ⟨10, 20, ObjectType.user⟩ ≠
      latLonToOffset ((10 : ℚ) : ℝ) ((20 : ℚ) : ℝ) ((10 : ℚ) : ℝ) ((20 : ℚ) : ℝ) := by
  constructor
  · simp [onFix, makeObjects]
  · intro h
    have h3 := congrArg (fun p : ℝ × ℝ × ℝ => p.2.2) h
    simp only [appRenderOffset, latLonToOffset, WORLD_ORIGIN, earthRadius] at h3
    have hq : (((12.7489708 : ℚ) : ℝ)) = (12.7489708 : ℝ) := by norm_num
    rw [hq] at h3
    push_cast at h3
    nlinarith [Real.pi_pos, h3]

/-- Claim C1 (amended): the first accepted fix creates a non-empty object
list and stores the fix coordinate in the tracker `origin` state, but every
object's render placement offset is `project(WORLD_ORIGIN, object
coordinate)` with the module constant `(12.7489708, 80.1988392)` as the
origin argument — not the first-fix coordinate. -/
theorem first_fix_list_and_world_origin_offsets (st : AppState) (latitude longitude : ℚ) :
    (onFix st latitude longitude).origin = some (latitude, longitude) ∧
    (onFix st latitude longitude).objects ≠ [] ∧
    ∀ o ∈ (onFix st latitude longitude).objects,
      appRenderOffset o =
        latLonToOffset (12.7489708 : ℝ) (80.1988392 : ℝ) ((o.lat : ℚ) : ℝ) ((o.lon : ℚ) : ℝ) := by
  refine ⟨rfl, by simp [onFix, makeObjects], fun o _ => ?_⟩
  unfold appRenderOffset WORLD_ORIGIN
  norm_num

end ARCampus
